import Mathlib

/-!
# alx-files_manager: file controllers, user registration and thumbnail worker

A shallow embedding of `controllers/FilesController.js`, `controllers/UsersController.js`,
`worker.js` and of the part of `utils/db.js` they read, with the document store, the session
store, the content store and the two queues as explicit state.
-/

namespace FilesManager

/-! ## Values -/

/-- A BSON `ObjectId`, kept as its canonical text: 24 lower-case hexadecimal digits. -/
structure ObjectId where
  hex : String
  deriving DecidableEq, Repr

/-- `ObjectId.prototype.toString()`. -/
def ObjectId.toString (o : ObjectId) : String := o.hex

/-- The JavaScript / BSON values that occur in request bodies, job payloads and documents.
JSON objects and arrays are left out; numbers are integers. -/
inductive JsVal where
  | undefined
  | null
  | bool (b : Bool)
  | num (n : Int)
  | str (s : String)
  | oid (o : ObjectId)
  deriving DecidableEq, Repr

/-- JavaScript truthiness: what `if (v)`, `!v` and `v ? a : b` test. -/
def JsVal.truthy : JsVal → Bool
  | .undefined => false
  | .null => false
  | .bool b => b
  | .num n => n != 0
  | .str s => s != ""
  | .oid _ => true

/-- Conversion to text inside a template literal, for the values a `localPath` can take. -/
def JsVal.template : JsVal → String
  | .undefined => "undefined"
  | .null => "null"
  | .bool true => "true"
  | .bool false => "false"
  | .num n => toString n
  | .str s => s
  | .oid o => o.toString

/-- A hexadecimal digit. -/
def isHexDigit (c : Char) : Bool :=
  ('0' ≤ c && c ≤ '9') || ('a' ≤ c && c ≤ 'f') || ('A' ≤ c && c ≤ 'F')

/-- A text of exactly 24 hexadecimal digits. -/
def isHex24 (s : String) : Bool := s.data.length == 24 && s.data.all isHexDigit

/-- Modelled from the spec: `basicUtils.isValidId` (utils/basic.js is not among the sources):
"a well-formed identifier", taken as what the `ObjectId` constructor reads as an id in text
form, 24 hexadecimal digits, or an `ObjectId` itself. -/
def basicUtils.isValidId : JsVal → Bool
  | .str s => isHex24 s
  | .oid _ => true
  | _ => false

/-- The call `ObjectId(v)` of the mongodb driver behind the guard `basicUtils.isValidId(v)`,
which is how every call but the one in `getIndex` is made: on a value that passes the guard,
the id it denotes; `none` on the values the guard does not let through. -/
def ObjectId.ofJs : JsVal → Option ObjectId
  | .str s => if isHex24 s then some ⟨String.mk (s.data.map Char.toLower)⟩ else none
  | .oid o => some o
  | _ => none

/-- The UTF-16 code units of a text, which is what `text.length` and `text[i]` count in
JavaScript. -/
def utf16Units (text : String) : List Nat :=
  text.data.flatMap (fun c =>
    if c.toNat < 65536 then [c.toNat]
    else [55296 + (c.toNat - 65536) / 1024, 56320 + (c.toNat - 65536) % 1024])

/-- The two lower-case hexadecimal digits of a byte. -/
def byteHex (b : Nat) : List Char :=
  ["0123456789abcdef".data.getD (b / 16) '0', "0123456789abcdef".data.getD (b % 16) '0']

/-- The call `ObjectId(text)` of the mongodb driver on an arbitrary text, as `getIndex` makes
it on the query parameter `parentId` without a guard: 24 hexadecimal digits are the id they
spell; any other text of 12 code units is taken as the 12 bytes of an id (the low byte of
each unit); on every other text the call throws (`none`). -/
def ObjectId.ofText (text : String) : Option ObjectId :=
  if isHex24 text then some ⟨String.mk (text.data.map Char.toLower)⟩
  else if (utf16Units text).length = 12 then
    some ⟨String.mk ((utf16Units text).flatMap (fun u => byteHex (u % 256)))⟩
  else none

/-! ## Documents and state -/

/-- A document of the `users` collection. -/
structure UserDoc where
  _id : ObjectId
  email : JsVal
  password : String
  deriving DecidableEq, Repr

/-- The object `fileData` that `postUpload` hands to `insertOne`. -/
structure FileData where
  userId : ObjectId
  name : JsVal
  type : JsVal
  isPublic : JsVal
  parentId : JsVal
  localPath : JsVal
  deriving DecidableEq, Repr

/-- A document of the `files` collection: the inserted fields and the `_id` the store gave it. -/
structure FileDoc extends FileData where
  _id : ObjectId
  deriving DecidableEq, Repr

/-- The payload of a job of `fileQueue`. -/
structure FileJob where
  fileId : JsVal
  userId : JsVal
  deriving DecidableEq, Repr

/-- The payload of a job of `userQueue`. -/
structure UserJob where
  userId : JsVal
  deriving DecidableEq, Repr

/-- Everything the handlers read or write: the session store (token to user id), the two
collections of the document store, the content store (location and transmitted data of every
write) and the two job queues. -/
structure Store where
  sessions : List (String × String)
  users : List UserDoc
  files : List FileDoc
  content : List (String × JsVal)
  fileQueue : List FileJob
  userQueue : List UserJob
  deriving DecidableEq, Repr

/-- What the store and the content store choose on their own during one request: the `_id` of
an inserted document and the location of a saved content. -/
structure Env where
  insertedId : ObjectId
  localPath : String

/-- A filter on the `files` collection; an absent field is not constrained. -/
structure FileQuery where
  _id : Option ObjectId := none
  userId : Option ObjectId := none
  parentId : Option JsVal := none
  deriving DecidableEq, Repr

/-- Exact-match comparison of the document store: every field of the filter equals, in type
and value, the field of the document. -/
def FileQuery.matches (q : FileQuery) (f : FileDoc) : Bool :=
  (match q._id with | none => true | some i => f._id == i) &&
  (match q.userId with | none => true | some u => f.userId == u) &&
  (match q.parentId with | none => true | some p => f.parentId == p)

/-- `collection.find(query)`: the matching documents, in the order of the collection. -/
def find (coll : List FileDoc) (query : FileQuery) : List FileDoc := coll.filter query.matches

/-- `collection.findOne(query)`. -/
def findOne (coll : List FileDoc) (query : FileQuery) : Option FileDoc := coll.find? query.matches

/-- `collection.countDocuments(query)`. -/
def countDocuments (coll : List FileDoc) (query : FileQuery) : Nat := (find coll query).length

/-- `cursor.skip(n)`: the store refuses a negative `n` (`none`). -/
def skip (n : Int) (cursor : List FileDoc) : Option (List FileDoc) :=
  if n < 0 then none else some (cursor.drop n.toNat)

/-- `cursor.limit(n)`. -/
def limit (n : Nat) (cursor : List FileDoc) : List FileDoc := cursor.take n

/-- `collection.updateOne({ _id }, { $set: { isPublic } })`: the first document with that
`_id` gets the flag, every other document stays. -/
def updateOne (coll : List FileDoc) (id : ObjectId) (isPublic : Bool) : List FileDoc :=
  match coll with
  | [] => []
  | f :: rest =>
    if f._id == id then { f with isPublic := .bool isPublic } :: rest
    else f :: updateOne rest id isPublic

/-- `Math.ceil(n / d)` on a count `n`. -/
def mathCeilDiv (n d : Nat) : Nat := (n + (d - 1)) / d

/-- The object `dbClient` of utils/db.js as the controllers read it. Its constructor assigns
`client`, `db`, `usersCollection` and `filesCollection`. `files` tells whether a property of
that name exists on the object, in which case it is the handle of the `files` collection. -/
structure DBClient where
  files : Bool
  deriving DecidableEq, Repr

/-- The singleton exported by utils/db.js: `new DBClient()` never assigns a property `files`,
so `dbClient.files` is `undefined` and a method call on it throws a `TypeError`. -/
def dbClient : DBClient := { files := false }

/-! ## Collaborators that are not among the sources -/

/-- Modelled from the spec: `userUtils.getUserIdAndKey` (utils/user.js is not among the
sources): "look up token in the session store"; the user id of the token, `null` when the
request has no token or the store has no session for it. -/
def userUtils.getUserIdAndKey (s : Store) (token : Option String) : JsVal :=
  match token with
  | none => .null
  | some t =>
    match s.sessions.lookup t with
    | none => .null
    | some u => .str u

/-- Modelled from the spec: `userUtils.getUser` (utils/user.js is not among the sources):
"load the User", the first user document with the given `_id`. -/
def userUtils.getUser (s : Store) (id : ObjectId) : Option UserDoc := s.users.find? (fun u => u._id == id)

/-- Modelled from the spec: `fileUtils.getFile` (utils/file.js is not among the sources): the
"File lookup", the first document of the `files` collection that matches the filter. -/
def fileUtils.getFile (s : Store) (query : FileQuery) : Option FileDoc := findOne s.files query

/-- Modelled from the spec: `fileUtils.saveFileContent` (utils/file.js is not among the
sources): the content store "writes it under a per-deployment root directory with a
collision-resistant filename" and "returns the absolute path". -/
def fileUtils.saveFileContent (env : Env) (s : Store) (_userId : JsVal) (data : JsVal) : Store × JsVal :=
  ({ s with content := s.content ++ [(env.localPath, data)] }, .str env.localPath)

/-! ## Requests and responses -/

/-- The body of `POST /files`, field by field (`undefined` for an absent field). -/
structure UploadBody where
  name : JsVal := .undefined
  type : JsVal := .undefined
  parentId : JsVal := .undefined
  isPublic : JsVal := .undefined
  data : JsVal := .undefined
  deriving DecidableEq, Repr

/-- What a handler of the files controller reads of a request: the `X-Token` header, the
route parameter `id`, the query parameters `parentId` and `page`, and the body. -/
structure Request where
  token : Option String := none
  id : String := ""
  parentId : Option String := none
  page : Option String := none
  body : UploadBody := {}
  deriving DecidableEq, Repr

/-- The payload of a response. -/
inductive Payload where
  | error (message : String)
  | file (f : FileDoc)
  | created (id : ObjectId) (userId : JsVal) (fileData : FileData)
  | listing (page : Int) (totalPages : Nat) (totalItems : Nat) (data : List FileDoc)
  | visibility (id : String) (isPublic : Bool)
  | sendFile (path : JsVal)
  | user (id : ObjectId) (email : JsVal)
  deriving DecidableEq, Repr

/-- A response: status code and payload. -/
structure Response where
  status : Nat
  payload : Payload
  deriving DecidableEq, Repr

/-- The answer of every `catch` block of the files controller. -/
def serverError : Response := ⟨500, .error "Server error"⟩

/-! ## controllers/FilesController.js -/

/-- The middleware `authenticateUser`: `Except.ok user` when it calls `next()` with
`req.user = user`, `Except.error r` when it answers `r` itself. No route registers it. -/
def authenticateUser (s : Store) (req : Request) : Except Response UserDoc :=
  let userId := userUtils.getUserIdAndKey s req.token
  if !basicUtils.isValidId userId then .error ⟨401, .error "Unauthorized"⟩ else
  match ObjectId.ofJs userId with
  | none => .error serverError
  | some uid =>
    match userUtils.getUser s uid with
    | none => .error ⟨401, .error "Unauthorized"⟩
    | some user => .ok user

/-- The object literal `fileData` of `postUpload`, once the content is saved (or skipped). -/
def postUpload.fileData (uid : ObjectId) (name type isPublic parentId localPath : JsVal) :
    Option FileData :=
  match (if parentId.truthy then ObjectId.ofJs parentId |>.map JsVal.oid else some (.num 0)) with
  | none => none
  | some parent =>
    some { userId := uid, name := name, type := type, isPublic := isPublic,
           parentId := parent, localPath := localPath }

/-- `dbClient.files.insertOne(fileData)`: `none` is the `TypeError` of a call on `undefined`;
otherwise the collection with the new document at its end, and the `insertedId`. -/
def insertOne (dbClient : DBClient) (env : Env) (s : Store) (fileData : FileData) :
    Option (Store × ObjectId) :=
  if dbClient.files then
    some ({ s with files := s.files ++ [{ fileData with _id := env.insertedId }] }, env.insertedId)
  else none

/-- `fileQueue.add({ fileId, userId })` in the controller. The name `fileQueue` is imported
from worker.js, which exports nothing, so it is `undefined` there and the call throws a
`TypeError` for every job: `none`, and no job reaches the queue. -/
def fileQueueAdd (_s : Store) (_fileId : ObjectId) (_userId : JsVal) : Option Store := none

/-- `FilesController.postUpload`. -/
def postUpload (dbClient : DBClient) (env : Env) (s : Store) (request : Request) :
    Store × Response :=
  let userId := userUtils.getUserIdAndKey s request.token
  if !basicUtils.isValidId userId then (s, ⟨401, .error "Unauthorized"⟩) else
  let name := request.body.name
  let type := request.body.type
  let parentId := request.body.parentId
  let isPublic := if request.body.isPublic = .undefined then .bool false else request.body.isPublic
  let data := request.body.data
  if !name.truthy then (s, ⟨400, .error "Missing name"⟩) else
  if !type.truthy then (s, ⟨400, .error "Missing type"⟩) else
  if !([JsVal.str "folder", .str "file", .str "image"].contains type) then
    (s, ⟨400, .error "Invalid type"⟩) else
  if type != .str "folder" && !data.truthy then (s, ⟨400, .error "Missing data"⟩) else
  if parentId.truthy && !basicUtils.isValidId parentId then (s, ⟨400, .error "Invalid parentId"⟩) else
  match (if parentId.truthy then ObjectId.ofJs parentId |>.map (fun o => fileUtils.getFile s { _id := some o })
         else some none) with
  | none => (s, serverError)
  | some parentFile =>
    if parentId.truthy &&
        (match parentFile with | none => true | some f => f.type != .str "folder") then
      (s, ⟨400, .error "Parent is not a folder"⟩)
    else
      match ObjectId.ofJs userId with
      | none => (s, serverError)
      | some uid =>
        let saved := if type == .str "folder" then (s, JsVal.null)
                     else fileUtils.saveFileContent env s userId data
        match postUpload.fileData uid name type isPublic parentId saved.2 with
        | none => (s, serverError)
        | some fileData =>
          match insertOne dbClient env saved.1 fileData with
          | none => (saved.1, serverError)
          | some (s2, insertedId) =>
            if type != .str "folder" then
              match fileQueueAdd s2 insertedId userId with
              | none => (s2, serverError)
              | some s3 => (s3, ⟨201, .created insertedId userId fileData⟩)
            else (s2, ⟨201, .created insertedId userId fileData⟩)

/-- `FilesController.getShow`. -/
def getShow (s : Store) (request : Request) : Response :=
  let userId := userUtils.getUserIdAndKey s request.token
  if !basicUtils.isValidId userId then ⟨401, .error "Unauthorized"⟩ else
  let fileId := request.id
  if !basicUtils.isValidId (.str fileId) then ⟨400, .error "Invalid fileId"⟩ else
  match ObjectId.ofJs (.str fileId) with
  | none => serverError
  | some oid =>
    match fileUtils.getFile s { _id := some oid } with
    | none => ⟨404, .error "Not found"⟩
    | some file =>
      if JsVal.str file.userId.toString != userId && !file.isPublic.truthy then
        ⟨403, .error "Unauthorized"⟩
      else ⟨200, .file file⟩

/-- The white space and line terminators that `parseInt` skips at the start of a text. -/
def isStrWhiteSpaceChar (c : Char) : Bool :=
  [9, 10, 11, 12, 13, 32, 160, 5760, 8232, 8233, 8239, 8287, 12288, 65279].contains c.toNat ||
    (8192 ≤ c.toNat && c.toNat ≤ 8202)

/-- `parseInt(v, 10)` on a query parameter: `none` is `NaN`, otherwise the integer that the
sign and the leading digits spell. JavaScript keeps that integer as a double, which is the
same number up to 2^53 in magnitude; beyond that the two part. -/
def parseInt10 (v : Option String) : Option Int :=
  match v with
  | none => none
  | some text =>
    let cs := text.data.dropWhile isStrWhiteSpaceChar
    let signed : Bool × List Char :=
      match cs with
      | '-' :: r => (true, r)
      | '+' :: r => (false, r)
      | _ => (false, cs)
    let ds := signed.2.takeWhile Char.isDigit
    if ds.isEmpty then none
    else
      let n : Nat := ds.foldl (fun a c => 10 * a + (c.toNat - 48)) 0
      some (if signed.1 then -(n : Int) else (n : Int))

/-- The object literal `query` of `getIndex`, where `parentId` is the text of the query
parameter or `'0'`; `none` when `ObjectId(parentId)` throws. -/
def getIndex.query (uid : ObjectId) (parentId : String) : Option FileQuery :=
  match (if parentId = "0" then some (JsVal.str "0")
         else ObjectId.ofText parentId |>.map JsVal.oid) with
  | none => none
  | some p => some { userId := some uid, parentId := some p }

/-- `FilesController.getIndex`. -/
def getIndex (dbClient : DBClient) (s : Store) (request : Request) : Response :=
  let userId := userUtils.getUserIdAndKey s request.token
  if !basicUtils.isValidId userId then ⟨401, .error "Unauthorized"⟩ else
  let parentId : String :=
    match request.parentId with
    | none => "0"
    | some p => if p != "" then p else "0"
  let page : Int := match parseInt10 request.page with | none => 0 | some n => n
  match ObjectId.ofJs userId with
  | none => serverError
  | some uid =>
    match getIndex.query uid parentId with
    | none => serverError
    | some query =>
      if dbClient.files then
        match skip (page * 20) (find s.files query) with
        | none => serverError
        | some cursor =>
          let fileList := limit 20 cursor
          let totalItems := countDocuments s.files query
          ⟨200, .listing page (mathCeilDiv totalItems 20) totalItems fileList⟩
      else serverError

/-- `isAbsolute` of express/lib/utils.js, which indexes the text by code unit. -/
def isAbsolute (path : String) : Bool :=
  match path.data with
  | '/' :: _ => true
  | '\\' :: '\\' :: _ => true
  | c :: ':' :: d :: _ => c.toNat < 65536 && (d == '\\' || d == '/')
  | _ => false

/-- `response.sendFile(path)` of Express, called without options: it throws a `TypeError`
(`none`) on a path that is empty, no text or not absolute; otherwise it starts the transfer
of that file, which is where the handler ends (what the transfer itself meets on disk comes
after the handler and is not part of this model). -/
def sendFile (path : JsVal) : Option Response :=
  match path with
  | .str text => if text != "" && isAbsolute text then some ⟨200, .sendFile path⟩ else none
  | _ => none

/-- `FilesController.getFile`. -/
def FilesController.getFile (s : Store) (request : Request) : Response :=
  let userId := userUtils.getUserIdAndKey s request.token
  if !basicUtils.isValidId userId then ⟨401, .error "Unauthorized"⟩ else
  let fileId := request.id
  if !basicUtils.isValidId (.str fileId) then ⟨400, .error "Invalid fileId"⟩ else
  match ObjectId.ofJs (.str fileId) with
  | none => serverError
  | some oid =>
    match fileUtils.getFile s { _id := some oid } with
    | none => ⟨404, .error "Not found"⟩
    | some file =>
      if file.type == .str "folder" then ⟨400, .error "A folder doesn’t have content"⟩ else
      if JsVal.str file.userId.toString != userId && !file.isPublic.truthy then
        ⟨403, .error "Unauthorized"⟩
      else
        match sendFile file.localPath with
        | none => serverError
        | some sent => sent

/-- `FilesController.putPublish`. -/
def putPublish (dbClient : DBClient) (s : Store) (request : Request) : Store × Response :=
  let userId := userUtils.getUserIdAndKey s request.token
  if !basicUtils.isValidId userId then (s, ⟨401, .error "Unauthorized"⟩) else
  let fileId := request.id
  if !basicUtils.isValidId (.str fileId) then (s, ⟨400, .error "Invalid fileId"⟩) else
  match ObjectId.ofJs (.str fileId) with
  | none => (s, serverError)
  | some oid =>
    match fileUtils.getFile s { _id := some oid } with
    | none => (s, ⟨404, .error "Not found"⟩)
    | some file =>
      if JsVal.str file.userId.toString != userId then (s, ⟨403, .error "Unauthorized"⟩) else
      if dbClient.files then
        ({ s with files := updateOne s.files oid true }, ⟨200, .visibility fileId true⟩)
      else (s, serverError)

/-- `FilesController.putUnpublish`. -/
def putUnpublish (dbClient : DBClient) (s : Store) (request : Request) : Store × Response :=
  let userId := userUtils.getUserIdAndKey s request.token
  if !basicUtils.isValidId userId then (s, ⟨401, .error "Unauthorized"⟩) else
  let fileId := request.id
  if !basicUtils.isValidId (.str fileId) then (s, ⟨400, .error "Invalid fileId"⟩) else
  match ObjectId.ofJs (.str fileId) with
  | none => (s, serverError)
  | some oid =>
    match fileUtils.getFile s { _id := some oid } with
    | none => (s, ⟨404, .error "Not found"⟩)
    | some file =>
      if JsVal.str file.userId.toString != userId then (s, ⟨403, .error "Unauthorized"⟩) else
      if dbClient.files then
        ({ s with files := updateOne s.files oid false }, ⟨200, .visibility fileId false⟩)
      else (s, serverError)

/-! ## controllers/UsersController.js -/

/-- The body of `POST /users`. -/
structure NewUserBody where
  email : JsVal := .undefined
  password : JsVal := .undefined
  deriving DecidableEq, Repr

/-- `UsersController.postNew`. `hash` is `bcrypt.hash(·, 10)` on a text; on a password that
is no text the library rejects, which the `catch` block answers. -/
def postNew (hash : String → String) (env : Env) (s : Store) (body : NewUserBody) :
    Store × Response :=
  let email := body.email
  let password := body.password
  if !email.truthy then (s, ⟨400, .error "Missing email"⟩) else
  if !password.truthy then (s, ⟨400, .error "Missing password"⟩) else
  let emailExists := s.users.find? (fun u => u.email == email)
  if emailExists.isSome then (s, ⟨400, .error "Already exist"⟩) else
  match password with
  | .str text =>
    let hashedPassword := hash text
    let insertedId := env.insertedId
    let s1 := { s with users := s.users ++ [({ _id := insertedId, email := email,
                                               password := hashedPassword } : UserDoc)] }
    let s2 := { s1 with userQueue := s1.userQueue ++ [({ userId := .str insertedId.toString } : UserJob)] }
    (s2, ⟨201, .user insertedId email⟩)
  | _ => (s, ⟨500, .error "Error creating user"⟩)

/-! ## worker.js -/

/-- The image library and the file system as the worker meets them: `imageThumbnail source
width` is the raster, `none` when the call rejects; `writeFile path raster` tells whether the
write succeeds. -/
structure ThumbnailEnv where
  imageThumbnail : JsVal → Nat → Option String
  writeFile : String → String → Bool

/-- What one run of the thumbnail processor did: the widths handed to `imageThumbnail`, in
order, and the artifacts written (path and raster), in order. -/
structure Effects where
  attempts : List Nat := []
  written : List (String × String) := []
  deriving DecidableEq, Repr

/-- The body of the loop `for (const width of widths)`: a rejection of either call is caught
and logged. -/
def thumbnailStep (env : ThumbnailEnv) (localPath : JsVal) (e : Effects) (width : Nat) :
    Effects :=
  let e1 : Effects := { e with attempts := e.attempts ++ [width] }
  match env.imageThumbnail localPath width with
  | none => e1
  | some thumbnail =>
    let path := localPath.template ++ "_" ++ toString width
    if env.writeFile path thumbnail then { e1 with written := e1.written ++ [(path, thumbnail)] }
    else e1

/-- The constant `widths` of the processor. -/
def widths : List Nat := [500, 250, 100]

/-- The processor of `fileQueue`: the effects of the run, and `Except.error message` when the
job throws `new Error(message)`. -/
def fileQueue.process (env : ThumbnailEnv) (s : Store) (job : FileJob) :
    Effects × Except String Unit :=
  let fileId := job.fileId
  let userId := job.userId
  if !userId.truthy then ({}, .error "Missing userId") else
  if !fileId.truthy then ({}, .error "Missing fileId") else
  if !basicUtils.isValidId fileId || !basicUtils.isValidId userId then
    ({}, .error "File not found") else
  match ObjectId.ofJs fileId, ObjectId.ofJs userId with
  | some fid, some uid =>
    match fileUtils.getFile s { _id := some fid, userId := some uid } with
    | none => ({}, .error "File not found")
    | some file => (widths.foldl (thumbnailStep env file.localPath) {}, .ok ())
  | _, _ => ({}, .error "Argument passed in must be a string of 24 hex characters")

/-! ## Example data -/

/-- The id of a first user. -/
def alice : String := "0000000000000000000000a1"

/-- The id of a second user. -/
def bob : String := "0000000000000000000000b2"

/-- An image of `alice` at the root whose `isPublic` is the text `"false"`, as an upload
body can carry it. -/
def flaggedImage : FileDoc :=
  { _id := ⟨"0000000000000000000000f1"⟩, userId := ⟨alice⟩, name := .str "a.png",
    type := .str "image", isPublic := .str "false", parentId := .num 0,
    localPath := .str "/tmp/files_manager/a" }

/-- A store with sessions for both users and the one file `flaggedImage`. -/
def flaggedStore : Store :=
  { sessions := [("token-a", alice), ("token-b", bob)], users := [], files := [flaggedImage],
    content := [], fileQueue := [], userQueue := [] }

/-- The request `GET /files/:id` of `bob` for `flaggedImage`. -/
def bobShowsFlagged : Request := { token := some "token-b", id := "0000000000000000000000f1" }

/-- The request `PUT /files/:id/publish` (or `unpublish`) of `bob` for `flaggedImage`. -/
def bobPublishesFlagged : Request := { token := some "token-b", id := "0000000000000000000000f1" }

/-- The request `GET /files/:id` of `alice` for `flaggedImage`; `flaggedStore` holds a session
for `alice` and no user document at all. -/
def aliceShowsFlagged : Request := { token := some "token-a", id := "0000000000000000000000f1" }

/-- What the stores choose in the examples. -/
def exampleEnv : Env := { insertedId := ⟨"0000000000000000000000f2"⟩,
                          localPath := "/tmp/files_manager/b" }

/-- An upload of `alice` whose body carries the empty text as `parentId`. -/
def emptyParentUpload : Request :=
  { token := some "token-a",
    body := { name := .str "notes.txt", type := .str "file", data := .str "aGk=",
              parentId := .str "" } }

/-- An upload of `alice` into `flaggedImage`, which is no folder. -/
def uploadIntoImage : Request :=
  { token := some "token-a",
    body := { name := .str "notes.txt", type := .str "file", data := .str "aGk=",
              parentId := .str "0000000000000000000000f1" } }

/-- An image library that fails at width 250 and nowhere else, over a file system that takes
every write. -/
def failsAt250 : ThumbnailEnv :=
  { imageThumbnail := fun _ width => if width = 250 then none else some "raster",
    writeFile := fun _ _ => true }

/-- The thumbnail job of `flaggedImage`. -/
def flaggedJob : FileJob := { fileId := .str "0000000000000000000000f1", userId := .str alice }

/-- A public image of `alice` at the root. -/
def publicImage : FileDoc :=
  { _id := ⟨"0000000000000000000000f3"⟩, userId := ⟨alice⟩, name := .str "p.png",
    type := .str "image", isPublic := .bool true, parentId := .num 0,
    localPath := .str "/tmp/files_manager/p" }

/-- A store with both users, their sessions and the one file `publicImage`. -/
def publicStore : Store :=
  { sessions := [("token-a", alice), ("token-b", bob)],
    users := [{ _id := ⟨alice⟩, email := .str "alice@example.com", password := "hash-a" },
              { _id := ⟨bob⟩, email := .str "bob@example.com", password := "hash-b" }],
    files := [publicImage], content := [], fileQueue := [], userQueue := [] }

/-- The request `GET /files/:id/data` for `publicImage` that carries no token. -/
def anonymousReadsPublic : Request := { token := none, id := "0000000000000000000000f3" }

/-- The request `GET /files/:id/data` of `bob` for `publicImage`. -/
def bobReadsPublic : Request := { token := some "token-b", id := "0000000000000000000000f3" }

/-- A registration body with a fresh address. -/
def carolBody : NewUserBody := { email := .str "carol@example.com", password := .str "secret1" }

/-- A store with both users and their sessions, and no file yet. -/
def emptyFilesStore : Store :=
  { sessions := [("token-a", alice), ("token-b", bob)],
    users := [{ _id := ⟨alice⟩, email := .str "alice@example.com", password := "hash-a" },
              { _id := ⟨bob⟩, email := .str "bob@example.com", password := "hash-b" }],
    files := [], content := [], fileQueue := [], userQueue := [] }

/-- An upload of `alice` without `parentId`: a folder at the root. -/
def aliceRootUpload : Request :=
  { token := some "token-a", body := { name := .str "docs", type := .str "folder" } }

/-- The request `GET /files` of `alice` without `parentId` and `page`: the root listing. -/
def aliceListsRoot : Request := { token := some "token-a" }

/-- An upload of `alice` whose body carries the text `"false"` as `isPublic`. -/
def aliceFlaggedUpload : Request :=
  { token := some "token-a",
    body := { name := .str "a.png", type := .str "image", data := .str "aGk=",
              isPublic := .str "false" } }

/-- A registration body with a fresh address whose password is the number 123456. -/
def numericPasswordBody : NewUserBody :=
  { email := .str "carol@example.com", password := .num 123456 }

/-- A public record of type `file` whose `localPath` is `null`. -/
def pathlessPublicFile : FileDoc :=
  { _id := ⟨"0000000000000000000000f4"⟩, userId := ⟨alice⟩, name := .str "n.txt",
    type := .str "file", isPublic := .bool true, parentId := .num 0, localPath := .null }

/-- The store `publicStore` with the one file `pathlessPublicFile`. -/
def pathlessStore : Store := { publicStore with files := [pathlessPublicFile] }

/-- The request `GET /files/:id/data` of `bob` for `pathlessPublicFile`. -/
def bobReadsPathless : Request := { token := some "token-b", id := "0000000000000000000000f4" }

/-! # Properties -/

/-! ## Identifiers -/

/-- What `ObjectId(v)` accepts is a well-formed id. -/
theorem ofJs_isValidId {v : JsVal} {o : ObjectId} (h : ObjectId.ofJs v = some o) :
    basicUtils.isValidId v = true := by
  cases v <;> simp_all [ObjectId.ofJs, basicUtils.isValidId]

/-- On a well-formed id `ObjectId(v)` does not throw. -/
theorem isValidId_ofJs {v : JsVal} (h : basicUtils.isValidId v = true) :
    ∃ o, ObjectId.ofJs v = some o := by
  cases v <;> simp_all [ObjectId.ofJs, basicUtils.isValidId]

/-- A well-formed id is truthy: no falsy value passes `isValidId`. -/
theorem isValidId_truthy {v : JsVal} (h : basicUtils.isValidId v = true) : v.truthy = true := by
  cases v with
  | str s =>
    simp only [basicUtils.isValidId, isHex24, Bool.and_eq_true, beq_iff_eq] at h
    simp only [JsVal.truthy, bne_iff_ne, ne_eq]
    intro hs
    subst hs
    simp at h
  | _ => simp_all [basicUtils.isValidId, JsVal.truthy]

/-! ## Visibility -/

/-- C1 (amended): when the token resolves to a well-formed `userId` and `request.id` to an
existing file, `getShow` answers 200 with the file exactly when `file.userId.toString()` is
the requester or `file.isPublic` is truthy, and 403 otherwise; on a file whose `isPublic` is
a boolean that is the condition "owner or `isPublic` is `true`". -/
theorem getShow_visible_iff_truthy (s : Store) (request : Request) (userId : String)
    (oid : ObjectId) (file : FileDoc)
    (hu : userUtils.getUserIdAndKey s request.token = .str userId)
    (hv : basicUtils.isValidId (.str userId) = true)
    (hid : ObjectId.ofJs (.str request.id) = some oid)
    (hf : fileUtils.getFile s { _id := some oid } = some file) :
    (getShow s request = ⟨200, .file file⟩ ↔
      (file.userId.toString = userId ∨ file.isPublic.truthy = true)) ∧
    (¬ (file.userId.toString = userId ∨ file.isPublic.truthy = true) →
      getShow s request = ⟨403, .error "Unauthorized"⟩) ∧
    (∀ b : Bool, file.isPublic = .bool b →
      (getShow s request = ⟨200, .file file⟩ ↔
        (file.userId.toString = userId ∨ file.isPublic = .bool true))) := by
  have hfid := ofJs_isValidId hid
  have key : getShow s request =
      if JsVal.str file.userId.toString != JsVal.str userId && !file.isPublic.truthy then
        ⟨403, .error "Unauthorized"⟩ else ⟨200, .file file⟩ := by
    simp [getShow, hu, hv, hfid, hid, hf]
  rw [key]
  refine ⟨?_, ?_, ?_⟩
  · by_cases ho : file.userId.toString = userId <;> cases hp : file.isPublic.truthy <;>
      simp [ho, hp]
  · intro hneg
    have ho : ¬ file.userId.toString = userId := fun h => hneg (Or.inl h)
    have hp : file.isPublic.truthy = false := by
      cases hp : file.isPublic.truthy
      · rfl
      · exact absurd (Or.inr hp) hneg
    simp [ho, hp]
  · intro b hb
    by_cases ho : file.userId.toString = userId <;> cases b <;>
      simp [ho, hb, JsVal.truthy]

/-- C1, as stated, fails: `bob` asks for a file of `alice` whose `isPublic` is the text
`"false"`; the requester is not the owner and `isPublic` is not `true`, and `getShow` still
answers 200 with the file, because the test is `!file.isPublic`. Such a record is what
`postUpload` builds from a body with that `isPublic` (inserted once `dbClient.files` is
bound). -/
theorem getShow_text_flag_counterexample :
    userUtils.getUserIdAndKey flaggedStore bobShowsFlagged.token = .str bob ∧
    basicUtils.isValidId (.str bob) = true ∧
    fileUtils.getFile flaggedStore { _id := ObjectId.ofJs (.str bobShowsFlagged.id) }
      = some flaggedImage ∧
    getShow flaggedStore bobShowsFlagged = ⟨200, .file flaggedImage⟩ ∧
    ¬ (flaggedImage.userId.toString = bob ∨ flaggedImage.isPublic = .bool true) ∧
    (postUpload ⟨true⟩ exampleEnv emptyFilesStore aliceFlaggedUpload).1.files.map
        (fun f => f.isPublic) = [.str "false"] := by
  decide

/-- C1 (witness): the amended statement at the request of `bob` for `flaggedImage`. -/
theorem getShow_visible_iff_truthy_witness :
    (getShow flaggedStore bobShowsFlagged = ⟨200, .file flaggedImage⟩ ↔
      (flaggedImage.userId.toString = bob ∨ flaggedImage.isPublic.truthy = true)) ∧
    (¬ (flaggedImage.userId.toString = bob ∨ flaggedImage.isPublic.truthy = true) →
      getShow flaggedStore bobShowsFlagged = ⟨403, .error "Unauthorized"⟩) ∧
    (∀ b : Bool, flaggedImage.isPublic = .bool b →
      (getShow flaggedStore bobShowsFlagged = ⟨200, .file flaggedImage⟩ ↔
        (flaggedImage.userId.toString = bob ∨ flaggedImage.isPublic = .bool true))) :=
  getShow_visible_iff_truthy flaggedStore bobShowsFlagged bob ⟨"0000000000000000000000f1"⟩
    flaggedImage (by decide) (by decide) (by decide) (by decide)

/-! ## Publishing -/

/-- The filter `{ _id }` selects the documents with that `_id`. -/
theorem matches_id_iff (oid : ObjectId) (f : FileDoc) :
    FileQuery.matches { _id := some oid } f = true ↔ f._id = oid := by
  simp [FileQuery.matches]

/-- When `findOne({ _id })` finds `file`, `updateOne` rewrites that occurrence of `file` and
nothing else. -/
theorem updateOne_found (coll : List FileDoc) (oid : ObjectId) (value : Bool) (file : FileDoc)
    (h : findOne coll { _id := some oid } = some file) :
    ∃ before after, coll = before ++ file :: after ∧ (∀ g ∈ before, g._id ≠ oid) ∧
      file._id = oid ∧
      updateOne coll oid value = before ++ { file with isPublic := .bool value } :: after := by
  induction coll with
  | nil => simp [findOne] at h
  | cons g rest ih =>
    by_cases hg : g._id = oid
    · have hm : FileQuery.matches { _id := some oid } g = true := (matches_id_iff oid g).mpr hg
      have : file = g := by
        simp only [findOne, List.find?_cons, hm] at h
        exact (Option.some.inj h).symm
      subst this
      exact ⟨[], rest, by simp, by simp, hg, by simp [updateOne, hg]⟩
    · have hm : FileQuery.matches { _id := some oid } g = false := by
        cases hc : FileQuery.matches { _id := some oid } g
        · rfl
        · exact absurd ((matches_id_iff oid g).mp hc) hg
      have h2 : findOne rest { _id := some oid } = some file := by
        simpa only [findOne, List.find?_cons, hm] using h
      obtain ⟨before, after, h1, h3, h4, h5⟩ := ih h2
      refine ⟨g :: before, after, by simp [h1], ?_, h4, ?_⟩
      · intro x hx
        rcases List.mem_cons.mp hx with rfl | hx
        · exact hg
        · exact h3 x hx
      · simp [updateOne, hg, h5]

/-- C2: for an authenticated requester and an existing file, `putPublish` and `putUnpublish`
answer 403 and leave the store as it was whenever `file.userId.toString()` is not the
requester, whatever `isPublic` holds; an answer 200 implies that the requester is the owner
and that exactly the found document changed, its `isPublic` set to `true`, respectively
`false`; and with `dbClient.files` bound the owner does get 200. -/
theorem putPublish_owner_only (dbClient : DBClient) (s : Store) (request : Request)
    (userId : String) (oid : ObjectId) (file : FileDoc)
    (hu : userUtils.getUserIdAndKey s request.token = .str userId)
    (hv : basicUtils.isValidId (.str userId) = true)
    (hid : ObjectId.ofJs (.str request.id) = some oid)
    (hf : fileUtils.getFile s { _id := some oid } = some file) :
    (file.userId.toString ≠ userId →
      putPublish dbClient s request = (s, ⟨403, .error "Unauthorized"⟩) ∧
      putUnpublish dbClient s request = (s, ⟨403, .error "Unauthorized"⟩)) ∧
    ((putPublish dbClient s request).2.status = 200 →
      file.userId.toString = userId ∧
      ∃ before after, s.files = before ++ file :: after ∧
        putPublish dbClient s request =
          ({ s with files := before ++ { file with isPublic := .bool true } :: after },
           ⟨200, .visibility request.id true⟩)) ∧
    ((putUnpublish dbClient s request).2.status = 200 →
      file.userId.toString = userId ∧
      ∃ before after, s.files = before ++ file :: after ∧
        putUnpublish dbClient s request =
          ({ s with files := before ++ { file with isPublic := .bool false } :: after },
           ⟨200, .visibility request.id false⟩)) ∧
    (dbClient.files = true → file.userId.toString = userId →
      (putPublish dbClient s request).2.status = 200 ∧
      (putUnpublish dbClient s request).2.status = 200) := by
  have hfid := ofJs_isValidId hid
  have kp : putPublish dbClient s request =
      if JsVal.str file.userId.toString != JsVal.str userId then
        (s, ⟨403, .error "Unauthorized"⟩)
      else if dbClient.files then
        ({ s with files := updateOne s.files oid true }, ⟨200, .visibility request.id true⟩)
      else (s, serverError) := by
    simp [putPublish, hu, hv, hfid, hid, hf]
  have ku : putUnpublish dbClient s request =
      if JsVal.str file.userId.toString != JsVal.str userId then
        (s, ⟨403, .error "Unauthorized"⟩)
      else if dbClient.files then
        ({ s with files := updateOne s.files oid false }, ⟨200, .visibility request.id false⟩)
      else (s, serverError) := by
    simp [putUnpublish, hu, hv, hfid, hid, hf]
  obtain ⟨before, after, h1, -, -, h5⟩ := updateOne_found s.files oid true file hf
  obtain ⟨before2, after2, h1b, -, -, h5b⟩ := updateOne_found s.files oid false file hf
  rw [kp, ku]
  refine ⟨?_, ?_, ?_, ?_⟩
  · intro hne
    simp [hne]
  · by_cases ho : file.userId.toString = userId <;> cases hd : dbClient.files <;>
      simp [ho, hd, serverError]
    exact ⟨before, after, h1, h5⟩
  · by_cases ho : file.userId.toString = userId <;> cases hd : dbClient.files <;>
      simp [ho, hd, serverError]
    exact ⟨before2, after2, h1b, h5b⟩
  · intro hd ho
    simp [ho, hd]

/-- C2 (witness): `bob` may neither publish nor unpublish the file of `alice`; the store
stays as it was. -/
theorem putPublish_owner_only_witness :
    flaggedImage.userId.toString ≠ bob ∧
    putPublish dbClient flaggedStore bobPublishesFlagged
      = (flaggedStore, ⟨403, .error "Unauthorized"⟩) ∧
    putUnpublish dbClient flaggedStore bobPublishesFlagged
      = (flaggedStore, ⟨403, .error "Unauthorized"⟩) :=
  ⟨by decide,
   (putPublish_owner_only dbClient flaggedStore bobPublishesFlagged bob
      ⟨"0000000000000000000000f1"⟩ flaggedImage (by decide) (by decide) (by decide)
      (by decide)).1 (by decide)⟩

/-! ## The authorization guard -/

/-- C3, the code at the failing input: the token of `alice` resolves to a well-formed id for
which the `users` collection holds no document. The middleware `authenticateUser` would answer
401, but no handler runs it: `getShow` reads the `files` collection and answers 200 with the
file, and `postUpload` writes the content before it fails on `dbClient.files`. -/
theorem guard_never_loads_user :
    userUtils.getUserIdAndKey flaggedStore aliceShowsFlagged.token = .str alice ∧
    basicUtils.isValidId (.str alice) = true ∧
    userUtils.getUser flaggedStore ⟨alice⟩ = none ∧
    authenticateUser flaggedStore aliceShowsFlagged = .error ⟨401, .error "Unauthorized"⟩ ∧
    getShow flaggedStore aliceShowsFlagged = ⟨200, .file flaggedImage⟩ ∧
    (postUpload dbClient exampleEnv flaggedStore emptyParentUpload).2.status = 500 ∧
    (postUpload dbClient exampleEnv flaggedStore emptyParentUpload).1.content
      = [("/tmp/files_manager/b", .str "aGk=")] :=
  ⟨by decide, by decide, by decide, rfl, by decide, by decide, by decide⟩

/-! ## Uploads below a parent -/

/-- C4 (amended): an authenticated upload whose `parentId` is truthy and malformed, or
resolves to no file, or resolves to a file that is no folder, is answered 400 and leaves the
whole store (collections, content store, queues) as it was. -/
theorem postUpload_rejects_bad_parent (dbClient : DBClient) (env : Env) (s : Store)
    (request : Request) (userId : String)
    (hu : userUtils.getUserIdAndKey s request.token = .str userId)
    (hv : basicUtils.isValidId (.str userId) = true)
    (ht : request.body.parentId.truthy = true)
    (hbad : basicUtils.isValidId request.body.parentId = false ∨
      ∃ oid, ObjectId.ofJs request.body.parentId = some oid ∧
        (fileUtils.getFile s { _id := some oid } = none ∨
         ∃ f, fileUtils.getFile s { _id := some oid } = some f ∧ f.type ≠ .str "folder")) :
    (postUpload dbClient env s request).2.status = 400 ∧
    (postUpload dbClient env s request).1 = s := by
  simp only [postUpload, hu, hv, ht, Bool.not_true, Bool.false_eq_true, if_false, if_true,
    Bool.true_and]
  by_cases h1 : (!request.body.name.truthy) = true
  · simp only [h1, if_true, and_self]
  simp only [h1, Bool.false_eq_true, if_false]
  by_cases h2 : (!request.body.type.truthy) = true
  · simp only [h2, if_true, and_self]
  simp only [h2, Bool.false_eq_true, if_false]
  by_cases h3 :
      (!([JsVal.str "folder", .str "file", .str "image"].contains request.body.type)) = true
  · simp only [h3, if_true, and_self]
  simp only [h3, Bool.false_eq_true, if_false]
  by_cases h4 : (request.body.type != JsVal.str "folder" && !request.body.data.truthy) = true
  · simp only [h4, if_true, and_self]
  simp only [h4, Bool.false_eq_true, if_false]
  rcases hbad with hb | ⟨oid, ho, hnone | ⟨f, hf, hty⟩⟩
  · simp only [hb, Bool.not_false, if_true, and_self]
  · have hval := ofJs_isValidId ho
    simp [hval, ho, hnone]
  · have hval := ofJs_isValidId ho
    simp [hval, ho, hf, hty]

/-- C4, as stated, fails: the body carries the `parentId` `""`, which is no well-formed id;
the test `parentId && ...` reads it as absent, so no 400 is sent and the content is written:
the answer is 500 and the store has changed, on `dbClient` as exported (where the insert
throws) and with `dbClient.files` bound (where a record is inserted at the root and the
enqueue throws). -/
theorem postUpload_empty_parent_counterexample :
    userUtils.getUserIdAndKey flaggedStore emptyParentUpload.token = .str alice ∧
    basicUtils.isValidId (.str alice) = true ∧
    basicUtils.isValidId emptyParentUpload.body.parentId = false ∧
    (postUpload dbClient exampleEnv flaggedStore emptyParentUpload).2.status = 500 ∧
    (postUpload dbClient exampleEnv flaggedStore emptyParentUpload).1 ≠ flaggedStore ∧
    (postUpload dbClient exampleEnv flaggedStore emptyParentUpload).1.content
      = [("/tmp/files_manager/b", .str "aGk=")] ∧
    (postUpload ⟨true⟩ exampleEnv flaggedStore emptyParentUpload).2.status = 500 ∧
    (postUpload ⟨true⟩ exampleEnv flaggedStore emptyParentUpload).1.files.map
        (fun f => f.parentId) = [.num 0, .num 0] := by
  decide

/-- C4 (witness): the upload of `alice` into a file that is no folder. -/
theorem postUpload_rejects_bad_parent_witness :
    (postUpload dbClient exampleEnv flaggedStore uploadIntoImage).2.status = 400 ∧
    (postUpload dbClient exampleEnv flaggedStore uploadIntoImage).1 = flaggedStore :=
  postUpload_rejects_bad_parent dbClient exampleEnv flaggedStore uploadIntoImage alice
    (by decide) (by decide) (by decide)
    (Or.inr ⟨⟨"0000000000000000000000f1"⟩, by decide,
      Or.inr ⟨flaggedImage, by decide, by decide⟩⟩)

/-! ## The thumbnail worker -/

/-- What the loop body leaves for one width: the artifact, when both calls succeed. -/
theorem thumbnailStep_eq (env : ThumbnailEnv) (localPath : JsVal) (e : Effects) (width : Nat) :
    thumbnailStep env localPath e width =
      { attempts := e.attempts ++ [width],
        written := e.written ++
          (match env.imageThumbnail localPath width with
           | none => []
           | some raster =>
             if env.writeFile (localPath.template ++ "_" ++ toString width) raster then
               [(localPath.template ++ "_" ++ toString width, raster)]
             else []) } := by
  unfold thumbnailStep
  cases env.imageThumbnail localPath width with
  | none => simp
  | some raster =>
    by_cases hw : env.writeFile (localPath.template ++ "_" ++ toString width) raster = true
    · simp [hw]
    · simp [hw]

/-- The loop over any list of widths: every width is attempted, in order, and the artifacts
written are those of the widths where both calls succeed. -/
theorem foldl_thumbnailStep (env : ThumbnailEnv) (localPath : JsVal) (ws : List Nat)
    (e : Effects) :
    ws.foldl (thumbnailStep env localPath) e =
      { attempts := e.attempts ++ ws,
        written := e.written ++ ws.filterMap (fun width =>
          match env.imageThumbnail localPath width with
          | none => none
          | some raster =>
            if env.writeFile (localPath.template ++ "_" ++ toString width) raster then
              some (localPath.template ++ "_" ++ toString width, raster)
            else none) } := by
  induction ws generalizing e with
  | nil => simp
  | cons w rest ih =>
    rw [List.foldl_cons, ih, thumbnailStep_eq]
    cases hi : env.imageThumbnail localPath w with
    | none => simp [List.filterMap_cons, hi]
    | some raster =>
      by_cases hw : env.writeFile (localPath.template ++ "_" ++ toString w) raster = true
      · simp [List.filterMap_cons, hi, hw]
      · simp [List.filterMap_cons, hi, hw]

/-- The processor past its validation: what is left is the lookup and the loop. -/
theorem process_of_valid (env : ThumbnailEnv) (s : Store) (job : FileJob) (fid uid : ObjectId)
    (hfid : ObjectId.ofJs job.fileId = some fid) (huid : ObjectId.ofJs job.userId = some uid) :
    fileQueue.process env s job =
      match fileUtils.getFile s { _id := some fid, userId := some uid } with
      | none => ({}, .error "File not found")
      | some file => (widths.foldl (thumbnailStep env file.localPath) {}, .ok ()) := by
  have v1 := ofJs_isValidId hfid
  have v2 := ofJs_isValidId huid
  have t1 := isValidId_truthy v1
  have t2 := isValidId_truthy v2
  simp [fileQueue.process, v1, v2, t1, t2, hfid, huid]

/-- C5: a job that passes validation (both ids read as `ObjectId`s and the lookup by `_id`
and `userId` finds a file) never throws; `imageThumbnail` is called for 500, 250, 100, in that
order, once each, whatever fails; the artifacts written are exactly the `localPath_w` whose
resize and write succeeded; and a failure at 250 leaves `localPath_500` and `localPath_100`
written when those two succeed. -/
theorem process_attempts_every_width (env : ThumbnailEnv) (s : Store) (job : FileJob)
    (fid uid : ObjectId) (file : FileDoc)
    (hfid : ObjectId.ofJs job.fileId = some fid) (huid : ObjectId.ofJs job.userId = some uid)
    (hf : fileUtils.getFile s { _id := some fid, userId := some uid } = some file) :
    (fileQueue.process env s job).2 = .ok () ∧
    (fileQueue.process env s job).1.attempts = [500, 250, 100] ∧
    (∀ path raster, (path, raster) ∈ (fileQueue.process env s job).1.written ↔
      ∃ w ∈ [500, 250, 100], path = file.localPath.template ++ "_" ++ toString w ∧
        env.imageThumbnail file.localPath w = some raster ∧ env.writeFile path raster = true) ∧
    (env.imageThumbnail file.localPath 250 = none →
      ∀ r500 r100, env.imageThumbnail file.localPath 500 = some r500 →
        env.writeFile (file.localPath.template ++ "_500") r500 = true →
        env.imageThumbnail file.localPath 100 = some r100 →
        env.writeFile (file.localPath.template ++ "_100") r100 = true →
        (fileQueue.process env s job).1.written =
          [(file.localPath.template ++ "_500", r500), (file.localPath.template ++ "_100", r100)]) := by
  rw [process_of_valid env s job fid uid hfid huid, hf]
  simp only [foldl_thumbnailStep, widths]
  refine ⟨trivial, by simp, ?_, ?_⟩
  · intro path raster
    simp only [List.nil_append, List.mem_filterMap]
    constructor
    · rintro ⟨w, hw, h⟩
      refine ⟨w, hw, ?_⟩
      cases hi : env.imageThumbnail file.localPath w with
      | none => simp [hi] at h
      | some r =>
        rw [hi] at h
        by_cases hwr : env.writeFile (file.localPath.template ++ "_" ++ toString w) r = true
        · simp only [hwr, if_true, Option.some.injEq, Prod.mk.injEq] at h
          obtain ⟨h1, h2⟩ := h
          subst h1 h2
          exact ⟨rfl, rfl, hwr⟩
        · simp [hwr] at h
    · rintro ⟨w, hw, hp, hi, hwr⟩
      refine ⟨w, hw, ?_⟩
      subst hp
      simp [hi, hwr]
  · intro h250 r500 r100 h500 w500 h100 w100
    have e500 : toString (500 : Nat) = "500" := by decide
    have e100 : toString (100 : Nat) = "100" := by decide
    have a500 : file.localPath.template ++ "_" ++ toString (500 : Nat)
        = file.localPath.template ++ "_500" := by rw [e500, String.append_assoc]; rfl
    have a100 : file.localPath.template ++ "_" ++ toString (100 : Nat)
        = file.localPath.template ++ "_100" := by rw [e100, String.append_assoc]; rfl
    simp [List.filterMap_cons, h250, h500, h100, a500, a100, w500, w100]

/-- The filter `{ _id, userId }` selects the documents with that `_id` and that owner. -/
theorem matches_id_userId_iff (fid uid : ObjectId) (f : FileDoc) :
    FileQuery.matches { _id := some fid, userId := some uid } f = true ↔
      f._id = fid ∧ f.userId = uid := by
  simp [FileQuery.matches]

/-- C6: the job throws exactly when `userId` is missing, `fileId` is missing, one of the two is
no well-formed id, or no file has both that `_id` and that `userId`; and a job that throws has
called no resize and written no artifact. -/
theorem process_throws_iff (env : ThumbnailEnv) (s : Store) (job : FileJob) :
    ((∃ message, (fileQueue.process env s job).2 = .error message) ↔
      ((job.userId = .undefined ∨ job.userId = .null) ∨
       (job.fileId = .undefined ∨ job.fileId = .null) ∨
       basicUtils.isValidId job.fileId = false ∨ basicUtils.isValidId job.userId = false ∨
       ¬ ∃ f ∈ s.files, ObjectId.ofJs job.fileId = some f._id ∧
          ObjectId.ofJs job.userId = some f.userId)) ∧
    ((∃ message, (fileQueue.process env s job).2 = .error message) →
      (fileQueue.process env s job).1 = {}) := by
  have falsy_invalid : ∀ v : JsVal, v.truthy = false → basicUtils.isValidId v = false := by
    intro v hv
    cases hc : basicUtils.isValidId v
    · rfl
    · rw [isValidId_truthy hc] at hv
      exact absurd hv (by decide)
  have truthy_present : ∀ v : JsVal, v.truthy = true → ¬ (v = .undefined ∨ v = .null) := by
    intro v hv h
    rcases h with rfl | rfl <;> simp [JsVal.truthy] at hv
  cases tu : job.userId.truthy with
  | false =>
    have hp : fileQueue.process env s job = ({}, .error "Missing userId") := by
      simp [fileQueue.process, tu]
    rw [hp]
    exact ⟨⟨fun _ => Or.inr (Or.inr (Or.inr (Or.inl (falsy_invalid _ tu)))), fun _ => ⟨_, rfl⟩⟩,
      fun _ => rfl⟩
  | true =>
    cases tf : job.fileId.truthy with
    | false =>
      have hp : fileQueue.process env s job = ({}, .error "Missing fileId") := by
        simp [fileQueue.process, tu, tf]
      rw [hp]
      exact ⟨⟨fun _ => Or.inr (Or.inr (Or.inl (falsy_invalid _ tf))), fun _ => ⟨_, rfl⟩⟩,
        fun _ => rfl⟩
    | true =>
      cases vf : basicUtils.isValidId job.fileId with
      | false =>
        have hp : fileQueue.process env s job = ({}, .error "File not found") := by
          simp [fileQueue.process, tu, tf, vf]
        rw [hp]
        exact ⟨⟨fun _ => Or.inr (Or.inr (Or.inl rfl)), fun _ => ⟨_, rfl⟩⟩, fun _ => rfl⟩
      | true =>
        cases vu : basicUtils.isValidId job.userId with
        | false =>
          have hp : fileQueue.process env s job = ({}, .error "File not found") := by
            simp [fileQueue.process, tu, tf, vf, vu]
          rw [hp]
          exact ⟨⟨fun _ => Or.inr (Or.inr (Or.inr (Or.inl rfl))), fun _ => ⟨_, rfl⟩⟩,
            fun _ => rfl⟩
        | true =>
          obtain ⟨fid, hfid⟩ := isValidId_ofJs vf
          obtain ⟨uid, huid⟩ := isValidId_ofJs vu
          rw [process_of_valid env s job fid uid hfid huid]
          cases hf : fileUtils.getFile s { _id := some fid, userId := some uid } with
          | none =>
            refine ⟨⟨fun _ => ?_, fun _ => ⟨_, rfl⟩⟩, fun _ => rfl⟩
            refine Or.inr (Or.inr (Or.inr (Or.inr ?_)))
            rintro ⟨f, hmem, h1, h2⟩
            have hnone := List.find?_eq_none.mp hf f hmem
            rw [hfid] at h1
            rw [huid] at h2
            have : FileQuery.matches { _id := some fid, userId := some uid } f = true :=
              (matches_id_userId_iff fid uid f).mpr
                ⟨(Option.some.inj h1).symm, (Option.some.inj h2).symm⟩
            exact hnone this
          | some file =>
            refine ⟨⟨fun h => ?_, fun h => ?_⟩, fun h => ?_⟩
            · obtain ⟨m, hm⟩ := h
              cases hm
            · exfalso
              rcases h with h | h | h | h | h
              · exact truthy_present _ tu h
              · exact truthy_present _ tf h
              · cases h
              · cases h
              · apply h
                have hm := List.find?_some hf
                have hmem := List.mem_of_find?_eq_some hf
                obtain ⟨h1, h2⟩ := (matches_id_userId_iff fid uid file).mp hm
                exact ⟨file, hmem, by rw [hfid, h1], by rw [huid, h2]⟩
            · obtain ⟨m, hm⟩ := h
              cases hm

/-- C5 (witness): the job of `flaggedImage` with a resize that fails at width 250. -/
theorem process_attempts_every_width_witness :
    (fileQueue.process failsAt250 flaggedStore flaggedJob).2 = .ok () ∧
    (fileQueue.process failsAt250 flaggedStore flaggedJob).1.attempts = [500, 250, 100] ∧
    (fileQueue.process failsAt250 flaggedStore flaggedJob).1.written =
      [(flaggedImage.localPath.template ++ "_500", "raster"),
       (flaggedImage.localPath.template ++ "_100", "raster")] :=
  have h := process_attempts_every_width failsAt250 flaggedStore flaggedJob
    ⟨"0000000000000000000000f1"⟩ ⟨alice⟩ flaggedImage (by decide) (by decide) (by decide)
  ⟨h.1, h.2.1, h.2.2.2 (by decide) "raster" "raster" (by decide) (by decide) (by decide)
    (by decide)⟩

/-! ## Reading content -/

/-- C9 (amended): for every store and request, (1) when the token resolves to a well-formed
`userId`, an existing public file that is no folder and whose `localPath` is an absolute path
is sent (`sendFile` of its `localPath`), to the owner and to anyone else; (2) when the token
resolves to no well-formed `userId` the answer is 401, whatever the file is, public or not,
existing or not. -/
theorem getFile_public_needs_token (s : Store) (request : Request) :
    (∀ (oid : ObjectId) (file : FileDoc) (path : String),
      basicUtils.isValidId (userUtils.getUserIdAndKey s request.token) = true →
      ObjectId.ofJs (.str request.id) = some oid →
      fileUtils.getFile s { _id := some oid } = some file →
      file.type ≠ .str "folder" →
      file.isPublic = .bool true →
      file.localPath = .str path →
      isAbsolute path = true →
      FilesController.getFile s request = ⟨200, .sendFile (.str path)⟩) ∧
    (basicUtils.isValidId (userUtils.getUserIdAndKey s request.token) = false →
      FilesController.getFile s request = ⟨401, .error "Unauthorized"⟩) := by
  constructor
  · intro oid file path hv hid hf hty hpub hpath habs
    have hfid := ofJs_isValidId hid
    have hne : path ≠ "" := by
      intro h
      subst h
      simp [isAbsolute] at habs
    simp [FilesController.getFile, hv, hfid, hid, hf, hty, hpub, hpath, JsVal.truthy, sendFile,
      habs, hne]
  · intro hv
    simp [FilesController.getFile, hv]

/-- C9, as stated, fails: `publicImage` exists, is no folder and is public, and the request
without a token is answered 401, not the content. -/
theorem getFile_anonymous_counterexample :
    fileUtils.getFile publicStore { _id := ObjectId.ofJs (.str anonymousReadsPublic.id) }
      = some publicImage ∧
    publicImage.type ≠ .str "folder" ∧
    publicImage.isPublic = .bool true ∧
    FilesController.getFile publicStore anonymousReadsPublic
      = ⟨401, .error "Unauthorized"⟩ := by
  decide

/-- C9 (witness): `bob`, who is not the owner, is sent the content of `publicImage`, and the
request without a token is answered 401. -/
theorem getFile_public_needs_token_witness :
    FilesController.getFile publicStore bobReadsPublic
      = ⟨200, .sendFile (.str "/tmp/files_manager/p")⟩ ∧
    FilesController.getFile publicStore anonymousReadsPublic
      = ⟨401, .error "Unauthorized"⟩ :=
  ⟨(getFile_public_needs_token publicStore bobReadsPublic).1 ⟨"0000000000000000000000f3"⟩
      publicImage "/tmp/files_manager/p" (by decide) (by decide) (by decide) (by decide)
      (by decide) (by decide) (by decide),
   (getFile_public_needs_token publicStore anonymousReadsPublic).2 (by decide)⟩

/-- Why C9 (amended) asks for an absolute `localPath`: on a public record of type `file` whose
`localPath` is `null`, `sendFile` throws and an authenticated requester is answered 500. -/
theorem getFile_pathless_is_server_error :
    FilesController.getFile pathlessStore bobReadsPathless = serverError := by
  decide

/-! ## Registration -/

/-- The call `findOne({ email })` finds a user exactly when some user has that address. -/
theorem find?_email_isSome (users : List UserDoc) (email : JsVal) :
    (users.find? (fun u => u.email == email)).isSome = true ↔ ∃ u ∈ users, u.email = email := by
  simp [List.find?_isSome]

/-- C10 (amended): on a `users` collection without a shared address and a body whose email
is a non-empty text and whose password is truthy, `postNew` answers 400 `Already exist` and
changes nothing when the address is taken; otherwise, when the password is a text, it appends
exactly one user, with that address, answers 201, and the same body sent again is answered
400 `Already exist`; when the password is no text, it answers 500 `Error creating user` and
changes nothing; in every case no two users share an address afterwards. -/
theorem postNew_keeps_emails_unique (hash : String → String) (env : Env) (s : Store)
    (body : NewUserBody) (address : String)
    (he : body.email = .str address) (hne : address ≠ "")
    (hpw : body.password.truthy = true)
    (huniq : (s.users.map UserDoc.email).Nodup) :
    ((∃ u ∈ s.users, u.email = .str address) →
      postNew hash env s body = (s, ⟨400, .error "Already exist"⟩)) ∧
    ((¬ ∃ u ∈ s.users, u.email = .str address) → ∀ text : String, body.password = .str text →
      postNew hash env s body =
        ({ s with
            users := s.users ++ [{ _id := env.insertedId, email := .str address,
                                   password := hash text }],
            userQueue := s.userQueue ++ [{ userId := .str env.insertedId.toString }] },
         ⟨201, .user env.insertedId (.str address)⟩) ∧
      ∀ env2 : Env, postNew hash env2 (postNew hash env s body).1 body =
        ((postNew hash env s body).1, ⟨400, .error "Already exist"⟩)) ∧
    ((¬ ∃ u ∈ s.users, u.email = .str address) → (∀ text : String, body.password ≠ .str text) →
      postNew hash env s body = (s, ⟨500, .error "Error creating user"⟩)) ∧
    ((postNew hash env s body).1.users.map UserDoc.email).Nodup := by
  have te : (JsVal.str address).truthy = true := by simp [JsVal.truthy, hne]
  have taken : (∃ u ∈ s.users, u.email = .str address) →
      postNew hash env s body = (s, ⟨400, .error "Already exist"⟩) := by
    intro hex
    have := (find?_email_isSome s.users (.str address)).mpr hex
    simp only [postNew, he, hpw, te, this]
    simp
  have fresh : ∀ (e2 : Env) (s2 : Store) (text : String), body.password = .str text →
      (¬ ∃ u ∈ s2.users, u.email = .str address) →
      postNew hash e2 s2 body =
        ({ s2 with
            users := s2.users ++ [{ _id := e2.insertedId, email := .str address,
                                    password := hash text }],
            userQueue := s2.userQueue ++ [{ userId := .str e2.insertedId.toString }] },
         ⟨201, .user e2.insertedId (.str address)⟩) := by
    intro e2 s2 text hp hex
    have : (s2.users.find? (fun u => u.email == JsVal.str address)).isSome = false := by
      cases hc : (s2.users.find? (fun u => u.email == JsVal.str address)).isSome
      · rfl
      · exact absurd ((find?_email_isSome s2.users (.str address)).mp hc) hex
    have tp : (JsVal.str text).truthy = true := by rw [← hp]; exact hpw
    simp only [postNew, he, hp, te, tp, this]
    simp
  have rejected : (¬ ∃ u ∈ s.users, u.email = .str address) →
      (∀ text : String, body.password ≠ .str text) →
      postNew hash env s body = (s, ⟨500, .error "Error creating user"⟩) := by
    intro hex hnt
    have : (s.users.find? (fun u => u.email == JsVal.str address)).isSome = false := by
      cases hc : (s.users.find? (fun u => u.email == JsVal.str address)).isSome
      · rfl
      · exact absurd ((find?_email_isSome s.users (.str address)).mp hc) hex
    simp only [postNew, he, hpw, te, this]
    cases hb : body.password with
    | str text => exact absurd hb (hnt text)
    | _ => simp
  refine ⟨taken, fun hex text hp => ⟨fresh env s text hp hex, fun env2 => ?_⟩, rejected, ?_⟩
  · rw [fresh env s text hp hex]
    have hex2 : ∃ u ∈ s.users ++ [UserDoc.mk env.insertedId (.str address) (hash text)],
        u.email = .str address :=
      ⟨_, List.mem_append_right _ (List.mem_singleton.mpr rfl), rfl⟩
    have := (find?_email_isSome _ (.str address)).mpr hex2
    simp only [postNew, he, hpw, te, this]
    simp
  · by_cases hex : ∃ u ∈ s.users, u.email = .str address
    · rw [taken hex]
      exact huniq
    · by_cases htext : ∃ text : String, body.password = .str text
      · obtain ⟨text, hp⟩ := htext
        rw [fresh env s text hp hex]
        simp only [List.map_append, List.map_cons, List.map_nil]
        refine List.Nodup.append huniq (List.nodup_singleton _) ?_
        intro x hx hx2
        rw [List.mem_singleton] at hx2
        subst hx2
        obtain ⟨u, hu, hue⟩ := List.mem_map.mp hx
        exact hex ⟨u, hu, hue⟩
      · rw [rejected hex (fun text hp => htext ⟨text, hp⟩)]
        exact huniq

/-- C10, as stated, fails: the body has a fresh address and the truthy password `123456`, a
number; `bcrypt.hash` rejects it, the answer is 500 `Error creating user` and no user is
inserted, where the claim has exactly one user inserted. -/
theorem postNew_numeric_password_counterexample :
    (publicStore.users.map UserDoc.email).Nodup ∧
    numericPasswordBody.email.truthy = true ∧
    numericPasswordBody.password.truthy = true ∧
    (¬ ∃ u ∈ publicStore.users, u.email = numericPasswordBody.email) ∧
    postNew id exampleEnv publicStore numericPasswordBody
      = (publicStore, ⟨500, .error "Error creating user"⟩) := by
  decide

/-- C10 (witness): `carol` registers with `publicStore`, whose two users have distinct
addresses; the second call with the same body is answered 400 `Already exist`. -/
theorem postNew_keeps_emails_unique_witness :
    (postNew id exampleEnv publicStore carolBody).2.status = 201 ∧
    (∀ env2 : Env, postNew id env2 (postNew id exampleEnv publicStore carolBody).1 carolBody =
      ((postNew id exampleEnv publicStore carolBody).1, ⟨400, .error "Already exist"⟩)) ∧
    ((postNew id exampleEnv publicStore carolBody).1.users.map UserDoc.email).Nodup :=
  have h := postNew_keeps_emails_unique id exampleEnv publicStore carolBody
    "carol@example.com" rfl (by decide) (by decide) (by decide)
  have hfresh : ¬ ∃ u ∈ publicStore.users, u.email = .str "carol@example.com" := by decide
  ⟨by rw [(h.2.1 hfresh "secret1" rfl).1], (h.2.1 hfresh "secret1" rfl).2, h.2.2.2⟩

/-! ## Listing -/

/-- The value of `Math.ceil(n / 20)` is the ceiling of the quotient. -/
theorem mathCeilDiv_eq_ceil (n : Nat) : (mathCeilDiv n 20 : Int) = ⌈(n : ℚ) / 20⌉ := by
  symm
  rw [Int.ceil_eq_iff]
  have h1 : 20 * mathCeilDiv n 20 ≤ n + 19 := by
    unfold mathCeilDiv; omega
  have h2 : n + 19 < 20 * mathCeilDiv n 20 + 20 := by
    unfold mathCeilDiv; omega
  have h1q : (20 : ℚ) * (mathCeilDiv n 20 : ℚ) ≤ (n : ℚ) + 19 := by exact_mod_cast h1
  have h2q : (n : ℚ) + 19 < 20 * (mathCeilDiv n 20 : ℚ) + 20 := by exact_mod_cast h2
  constructor
  · push_cast
    rw [lt_div_iff₀ (by norm_num)]
    linarith
  · push_cast
    rw [div_le_iff₀ (by norm_num)]
    have h3 : n + 19 + 1 ≤ 20 * mathCeilDiv n 20 + 20 := h2
    have h3q : (n : ℚ) + 19 + 1 ≤ 20 * (mathCeilDiv n 20 : ℚ) + 20 := by exact_mod_cast h3
    linarith

/-- Two consecutive windows of a list without repetition have no element in common. -/
theorem slices_disjoint {α : Type} (l : List α) (h : l.Nodup) (a n m : Nat) :
    List.Disjoint ((l.drop a).take n) ((l.drop (a + n)).take m) := by
  have hd : (l.drop a).Nodup := h.sublist (List.drop_sublist a l)
  rw [← List.take_append_drop n (l.drop a)] at hd
  have hdis := (List.nodup_append.mp hd).2.2
  intro x hx hy
  have hy2 : x ∈ List.drop n (List.drop a l) := by
    rw [List.drop_drop]
    exact List.mem_of_mem_take hy
  exact hdis hx hy2

/-- The pagination of `getIndex` once `dbClient.files` is bound to the collection: for a page
number `p ≥ 0` whose offset `20 p` is below 2^53 (where the JavaScript number is the integer
itself) the answer is 200 with `totalItems` the number of matching documents,
`totalPages = ⌈totalItems / 20⌉`, `data` the matching documents at positions
`[20 p, 20 p + 20)`, at most 20 of them, and with distinct `_id`s in the collection the pages
`p` and `p + 1` share no `_id`. -/
theorem getIndex_paginates_when_bound (s : Store) (request : Request) (userId : String)
    (uid : ObjectId) (query : FileQuery) (p : Nat)
    (hu : userUtils.getUserIdAndKey s request.token = .str userId)
    (huid : ObjectId.ofJs (.str userId) = some uid)
    (hq : getIndex.query uid
      (match request.parentId with | none => "0" | some x => if x != "" then x else "0")
        = some query)
    (hp : (match parseInt10 request.page with | none => (0 : Int) | some n => n) = (p : Int))
    (_hexact : 20 * p < 2 ^ 53) :
    getIndex ⟨true⟩ s request =
      ⟨200, .listing p (mathCeilDiv (s.files.filter query.matches).length 20)
        (s.files.filter query.matches).length
        (((s.files.filter query.matches).drop (20 * p)).take 20)⟩ ∧
    ((mathCeilDiv (s.files.filter query.matches).length 20 : Int)
      = ⌈((s.files.filter query.matches).length : ℚ) / 20⌉) ∧
    (((s.files.filter query.matches).drop (20 * p)).take 20).length ≤ 20 ∧
    ((s.files.map FileDoc._id).Nodup →
      List.Disjoint
        ((((s.files.filter query.matches).drop (20 * p)).take 20).map FileDoc._id)
        ((((s.files.filter query.matches).drop (20 * (p + 1))).take 20).map FileDoc._id)) := by
  have hv := ofJs_isValidId huid
  refine ⟨?_, mathCeilDiv_eq_ceil _, ?_, ?_⟩
  · have hskip : skip ((p : Int) * 20) (find s.files query)
        = some ((s.files.filter query.matches).drop (20 * p)) := by
      have : ¬ ((p : Int) * 20 < 0) := by omega
      have h2 : ((p : Int) * 20).toNat = 20 * p := by omega
      simp [skip, this, h2, find]
    simp only [getIndex, hu, hv, huid, hq, hp, hskip]
    simp [limit, countDocuments, find]
  · simp [List.length_take]
  · intro hnd
    have hsub : ((s.files.filter query.matches).map FileDoc._id).Nodup :=
      hnd.sublist (List.Sublist.map _ (List.filter_sublist _))
    have := slices_disjoint _ hsub (20 * p) 20 20
    simpa [List.map_take, List.map_drop, Nat.mul_add] using this

/-- C8, the code on the `dbClient` that utils/db.js exports: `dbClient.files` is `undefined`,
so every request to `getIndex` is answered 401 or, once authenticated, 500 `Server error`;
no request is answered with a listing. -/
theorem getIndex_fails_on_dbClient (s : Store) (request : Request) :
    getIndex dbClient s request = ⟨401, .error "Unauthorized"⟩ ∨
    getIndex dbClient s request = serverError := by
  unfold getIndex
  by_cases hv : basicUtils.isValidId (userUtils.getUserIdAndKey s request.token) = true
  · right
    simp only [hv, dbClient, Bool.not_true, Bool.false_eq_true, if_false]
    cases ObjectId.ofJs (userUtils.getUserIdAndKey s request.token) with
    | none => rfl
    | some uid =>
      simp only []
      split <;> rfl
  · left
    simp [hv]

/-- The two root sentinels: `postUpload` writes the number `0` for an absent `parentId`,
`getIndex` filters on the text `"0"` for an absent `parentId`, and under exact match no
document written by the first satisfies the filter of the second. -/
theorem root_sentinels_differ (uid requester id : ObjectId)
    (name type isPublic localPath : JsVal) :
    postUpload.fileData uid name type isPublic .undefined localPath
      = some ⟨uid, name, type, isPublic, .num 0, localPath⟩ ∧
    getIndex.query requester "0"
      = some { userId := some requester, parentId := some (.str "0") } ∧
    FileQuery.matches { userId := some requester, parentId := some (.str "0") }
      { toFileData := ⟨uid, name, type, isPublic, .num 0, localPath⟩, _id := id } = false := by
  refine ⟨rfl, rfl, ?_⟩
  simp [FileQuery.matches]

/-- No document whose `parentId` is the number `0` is ever part of a root listing, whatever
`dbClient.files` is bound to. -/
theorem root_listing_skips_number_zero (db : DBClient) (s : Store) (request : Request)
    (page : Int) (totalPages totalItems : Nat) (data : List FileDoc)
    (hroot : request.parentId = none)
    (h : getIndex db s request = ⟨200, .listing page totalPages totalItems data⟩) :
    ∀ f ∈ data, f.parentId ≠ .num 0 := by
  intro f hf hzero
  unfold getIndex at h
  simp only [hroot] at h
  by_cases hv : basicUtils.isValidId (userUtils.getUserIdAndKey s request.token) = true
  · simp only [hv, Bool.not_true, Bool.false_eq_true, if_false] at h
    cases hu : ObjectId.ofJs (userUtils.getUserIdAndKey s request.token) with
    | none => simp [hu, serverError] at h
    | some uid =>
      simp only [hu, getIndex.query, if_true] at h
      cases hd : db.files with
      | false => simp [hd, serverError] at h
      | true =>
        simp only [hd, if_true] at h
        cases hs : skip ((match parseInt10 request.page with | none => 0 | some n => n) * 20)
            (find s.files { userId := some uid, parentId := some (.str "0") }) with
        | none => simp [hs, serverError] at h
        | some cursor =>
          simp only [hs] at h
          have hdata : data = limit 20 cursor := by
            have := congrArg Response.payload h
            simp only [Payload.listing.injEq] at this
            exact this.2.2.2.symm
          subst hdata
          have hc : f ∈ cursor := List.mem_of_mem_take hf
          have hfind : f ∈ find s.files { userId := some uid, parentId := some (.str "0") } := by
            unfold skip at hs
            split at hs
            · cases hs
            · cases hs
              exact List.mem_of_mem_drop hc
          have hm := (List.mem_filter.mp hfind).2
          simp [FileQuery.matches, hzero] at hm
  · simp [hv] at h

/-- C7, the code at the failing input: `alice` uploads a folder without `parentId`, then asks
for her root listing. On `dbClient` as exported both requests end in 500. With
`dbClient.files` bound the upload succeeds (201) and persists `parentId` as the number `0`,
and the root listing of `alice`, which filters on the text `"0"`, is empty: the folder she
has just created at the root is not in it. -/
theorem root_upload_not_listed :
    (postUpload dbClient exampleEnv emptyFilesStore aliceRootUpload).2.status = 500 ∧
    (getIndex dbClient emptyFilesStore aliceListsRoot).status = 500 ∧
    (postUpload ⟨true⟩ exampleEnv emptyFilesStore aliceRootUpload).2.status = 201 ∧
    (postUpload ⟨true⟩ exampleEnv emptyFilesStore aliceRootUpload).1.files.map
        (fun f => (f.userId, f.type, f.parentId)) = [(⟨alice⟩, .str "folder", .num 0)] ∧
    getIndex ⟨true⟩ (postUpload ⟨true⟩ exampleEnv emptyFilesStore aliceRootUpload).1
        aliceListsRoot = ⟨200, .listing 0 0 0 []⟩ := by
  decide

end FilesManager
